import Mathlib

/-!
Verification of the route-discovery and manifest-reconciliation subsystem of
the chutes-wrappers repository (tools/chute_wrappers.py, tools/discover_routes.py,
tools/create_chute_from_image.py), via a shallow embedding of its functions.

Python strings are embedded as Lean `String`; the handful of Python string
operations used by the code (`in`, `startswith`, `rstrip`, `strip`, `upper`,
`lower`) are modelled explicitly on the underlying character list.  Python
dicts holding route fields are embedded as structures with `Option` fields
(`none` = key absent); the dict used by the manifest merge is embedded as a
function to `Option` (insertion overwrites, like a Python dict).
-/

/-- Python `c in s` for a single-character needle. -/
def pyContainsChar (s : String) (c : Char) : Bool :=
  s.data.contains c

/-- Python `s.startswith(t)`. -/
def pyStartsWith (s t : String) : Bool :=
  t.data.isPrefixOf s.data

/-- Python `s.upper()` (ASCII, which is all the code feeds it). -/
def pyUpper (s : String) : String :=
  ⟨s.data.map Char.toUpper⟩

/-- Python `s.lower()` (ASCII, which is all the code feeds it). -/
def pyLower (s : String) : String :=
  ⟨s.data.map Char.toLower⟩

/-- Python `s.rstrip("/")`. -/
def pyRstripSlashes (s : String) : String :=
  ⟨(s.data.reverse.dropWhile (fun c => c == '/')).reverse⟩

/-- Python `s.strip(c)` for a single strip character. -/
def pyStripChar (s : String) (c : Char) : String :=
  ⟨((s.data.dropWhile (fun d => d == c)).reverse.dropWhile (fun d => d == c)).reverse⟩

/-- Python `a or b` where `a` is an optional string (`None` and `""` are falsy). -/
def pyOrStr (a : Option String) (b : String) : String :=
  match a with
  | some s => if s = "" then b else s
  | none => b

/-- Python `a or b` where `a` is an optional integer (`None` and `0` are falsy). -/
def pyOrInt (a : Option Int) (b : Int) : Int :=
  match a with
  | some n => if n = 0 then b else n
  | none => b

/-- The `cord` sub-dict a manifest route may carry (`_register_single_route`
reads these keys from `route["cord"]`); `none` models an absent key. -/
structure CordMeta where
  path : Option String := none
  function_name : Option String := none
  public_api_path : Option String := none
  public_api_method : Option String := none
  method : Option String := none
  passthrough : Option Bool := none
  passthrough_port : Option Int := none
  passthrough_path : Option String := none
  stream : Option Bool := none
deriving DecidableEq

/-- A route dict as it appears in manifests.  Every key except `path` is
optional (the code reads `path` with `route["path"]` in the merge, so the
embedding covers the dicts that carry it); `none` models an absent key. -/
structure Route where
  path : String
  method : Option String := none
  port : Option Int := none
  target_path : Option String := none
  stream : Option Bool := none
  public_api_path : Option String := none
  internal_path : Option String := none
  function_name : Option String := none
  passthrough_path : Option String := none
  passthrough_port : Option Int := none
  cord : Option CordMeta := none
deriving DecidableEq

/-- The merge key `(route["path"], route.get("method", "GET").upper())` used at
chute_wrappers.py:450 and 453. -/
def routeKey (r : Route) : String × String :=
  (r.path, pyUpper (r.method.getD "GET"))

/-- Result of the static-route merge in `load_route_manifest`: the merged
route list, the keys for which a conflict warning was logged
(`logger.warning`, line 459), and the keys collected in `duplicates`
(skipped silently, reported in one `logger.info` at the end). -/
structure MergeResult where
  routes : List Route
  warnings : List (String × String)
  duplicates : List (String × String)
deriving DecidableEq

/-- The dict comprehension `{(r["path"], r.get("method", "GET").upper()): r for r in routes}`
(chute_wrappers.py:450); later entries overwrite earlier ones with the same key. -/
def buildExisting (routes : List Route) : (String × String) → Option Route :=
  routes.foldl (fun f r => fun k => if k = routeKey r then some r else f k) (fun _ => none)

/-- The `for route in static_routes` loop of `load_route_manifest`
(chute_wrappers.py:452-467): look the key up in `existing`; if present with a
differing `port`/`target_path`, log a warning; if present and matching, record
a duplicate; if absent, append the route and insert it into `existing`. -/
def mergeLoop (existing : (String × String) → Option Route) (routes : List Route)
    (warns dups : List (String × String)) : List Route → MergeResult
  | [] => ⟨routes, warns, dups⟩
  | route :: rest =>
    match existing (routeKey route) with
    | some existing_route =>
      if route.port ≠ existing_route.port ∨ route.target_path ≠ existing_route.target_path then
        mergeLoop existing routes (warns ++ [routeKey route]) dups rest
      else
        mergeLoop existing routes warns (dups ++ [routeKey route]) rest
    | none =>
      mergeLoop (fun k => if k = routeKey route then some route else existing k)
        (routes ++ [route]) warns dups rest

/-- The static-route merge step of `load_route_manifest`
(chute_wrappers.py:448-474): seed `existing` from the loaded routes, then run
the declared (static) routes through the loop.  (`if static_routes:` guards the
whole block; an empty static list leaves the routes untouched.) -/
def load_route_manifest_merge (routes static_routes : List Route) : MergeResult :=
  if static_routes.isEmpty then ⟨routes, [], []⟩
  else mergeLoop (buildExisting routes) routes [] [] static_routes

/-- Claim C1 as stated: every declared entry is keyed against the discovered
list `D` itself — appended when its key is absent from `D`, warned about when
some entry of `D` has its key but a differing `port`/`target_path`, skipped
when some entry of `D` has its key with matching fields. -/
def C1KeyedOverD (D S : List Route) : Prop :=
  (load_route_manifest_merge D S).routes
      = D ++ S.filter (fun s => decide (¬ ∃ d ∈ D, routeKey d = routeKey s))
    ∧ (load_route_manifest_merge D S).warnings
      = (S.filter (fun s => decide (∃ d ∈ D, routeKey d = routeKey s ∧
          (s.port ≠ d.port ∨ s.target_path ≠ d.target_path)))).map routeKey

/-- The merge as the spec's algorithm sentence describes it, phrased over an
evolving working list instead of the code's dict: seed the working list from
the discovered routes; a declared entry whose key is absent from the working
list is appended to it; one whose key is present is compared against the most
recent working-list entry with that key, yielding a warning when `port` or
`target_path` differ and a silent skip otherwise. -/
def mergeWorkingSet (work : List Route) (warns dups : List (String × String)) :
    List Route → MergeResult
  | [] => ⟨work, warns, dups⟩
  | s :: rest =>
    match work.reverse.find? (fun r => decide (routeKey r = routeKey s)) with
    | some w =>
      if s.port ≠ w.port ∨ s.target_path ≠ w.target_path then
        mergeWorkingSet work (warns ++ [routeKey s]) dups rest
      else
        mergeWorkingSet work warns (dups ++ [routeKey s]) rest
    | none => mergeWorkingSet (work ++ [s]) warns dups rest

/-- `mergeWorkingSet` run the way `load_route_manifest` runs its merge. -/
def mergeWorkingSetRun (routes static_routes : List Route) : MergeResult :=
  if static_routes.isEmpty then ⟨routes, [], []⟩
  else mergeWorkingSet routes [] [] static_routes

/-- An operation object in an OpenAPI schema, as `extract_routes` reads it:
only `definition.get("x-stream", False)` is consulted. -/
structure Operation where
  xStream : Option Bool := none
deriving DecidableEq

/-- A fetched schema document: `none` models a JSON document with no `paths`
key (`"paths" in data` / `spec.get("paths", {})`); the mapping itself is the
ordered association list of a JSON object, path → (method → operation). -/
structure SpecDoc where
  pathsMap : Option (List (String × List (String × Operation))) := none
deriving DecidableEq

/-- The supported-method set of `extract_routes` (discover_routes.py:52). -/
def SUPPORTED_METHODS : List String := ["get", "post", "put", "patch", "delete"]

/-- `extract_routes(spec, default_port)` (discover_routes.py:46-63): walk
`spec.get("paths", {})`, skip methods outside the supported set, and append a
route with upper-cased method, `target_path = path`, `port = default_port`,
and `stream = definition.get("x-stream", False)`. -/
def extract_routes (spec : SpecDoc) (default_port : Int) : List Route :=
  (spec.pathsMap.getD []).foldl
    (fun routes pm =>
      pm.2.foldl
        (fun routes md =>
          if SUPPORTED_METHODS.contains (pyLower md.1) then
            routes ++ [{ path := pm.1, method := some (pyUpper md.1),
                         port := some default_port, target_path := some pm.1,
                         stream := some (md.2.xStream.getD false) }]
          else routes)
        routes)
    []

/-- The descriptor `extract_routes` builds for schema entry `(path, (method, op))`. -/
def extractedRoute (path method : String) (op : Operation) (default_port : Int) : Route :=
  { path := path, method := some (pyUpper method), port := some default_port,
    target_path := some path, stream := some (op.xStream.getD false) }

/-- `extract_routes` as the claim phrases it: one descriptor per `(path, method)`
pair of the paths mapping whose method is supported, in schema order. -/
def extractRoutesFilterMap (spec : SpecDoc) (default_port : Int) : List Route :=
  (spec.pathsMap.getD []).flatMap
    (fun pm =>
      (pm.2.filter (fun md => SUPPORTED_METHODS.contains (pyLower md.1))).map
        (fun md => extractedRoute pm.1 md.1 md.2 default_port))

/-- `_SKIP_PATH_PREFIXES` (chute_wrappers.py:494-503). -/
def SKIP_PATH_STARTS : List String :=
  ["/static", "/assets", "/svelte", "/login", "/logout", "/gradio_api", "/theme", "/__"]

/-- `_SKIP_PATHS_EXACT` (chute_wrappers.py:504). -/
def SKIP_PATHS_EXACT : List String := ["/", ""]

/-- `_should_skip_route(path)` (chute_wrappers.py:507-521): the registration
eligibility filter; `some reason` means the route is not registered. -/
def should_skip_route (path : String) : Option String :=
  if pyContainsChar path '{' || pyContainsChar path '}' then
    some "path parameter"
  else if pyContainsChar path '.' then
    some "file extension in path"
  else if SKIP_PATHS_EXACT.contains path then
    some "root/empty path"
  else if SKIP_PATH_STARTS.any
      (fun p => pyStartsWith path p || pyStartsWith (pyRstripSlashes path) p) then
    some "internal/UI route"
  else
    none

/-- Outcome of one HTTP probe in `fetch_spec` (discover_routes.py:36-38): the
three `requests.RequestException` cases the `except` clause absorbs — network
failure in `session.get`, non-2xx in `raise_for_status`, undecodable body in
`resp.json()` — or a successfully parsed JSON document. -/
inductive ProbeOutcome where
  | networkError
  | httpStatusError
  | jsonDecodeError
  | parsed (doc : SpecDoc)
deriving DecidableEq

/-- Whether a probe outcome is the success case of `fetch_spec`: a parsed
document in which `"paths" in data` holds. -/
def probeHit (probe : String → ProbeOutcome) (p : String) : Bool :=
  match probe p with
  | .parsed doc => doc.pathsMap.isSome
  | _ => false

/-- `fetch_spec(base_url, probe_paths)` (discover_routes.py:30-43), with the
HTTP layer given as an oracle `probe` mapping each probe path to its outcome.
Returns the result together with the list of probe paths actually requested.
Failure carries the `RuntimeError` message of line 43. -/
def fetch_spec (base_url : String) (probe : String → ProbeOutcome) :
    List String → Except String SpecDoc × List String
  | [] => (.error ("Unable to fetch OpenAPI spec from " ++ base_url), [])
  | p :: rest =>
    match probe p with
    | .parsed doc =>
      if doc.pathsMap.isSome then (.ok doc, [p])
      else
        let r := fetch_spec base_url probe rest
        (r.1, p :: r.2)
    | _ =>
      let r := fetch_spec base_url probe rest
      (r.1, p :: r.2)

/-- Start time of attempt `i` in `fetch_spec_with_retry`, when attempt `j`
takes `dur j` seconds and each failed attempt is followed by `time.sleep(5)`. -/
def attemptTime (dur : Nat → Nat) (t0 : Nat) : Nat → Nat
  | 0 => t0
  | i + 1 => attemptTime dur t0 i + dur i + 5

/-- The epilogue of `fetch_spec_with_retry` once the deadline has passed
(discover_routes.py:294-296): re-raise the remembered failure, or a fresh
`RuntimeError` when no attempt ever ran. -/
def retryFinish (base_url : String) (i : Nat) : Option String → Except String SpecDoc × Nat
  | some e => (.error e, i)
  | none => (.error ("Unable to fetch OpenAPI spec from " ++ base_url), i)

/-- The `while time.time() < deadline` loop of `fetch_spec_with_retry`
(discover_routes.py:288-296): attempt `i` runs the whole `fetch_spec` sequence
against the attempt-indexed oracle; on `RuntimeError` remember it, sleep 5
seconds and loop; once the deadline has passed, finish via `retryFinish`.
Returns the result and the number of `fetch_spec` invocations. -/
def retryLoop (base_url : String) (probes : List String)
    (attemptProbe : Nat → String → ProbeOutcome) (dur : Nat → Nat) (deadline : Nat)
    (i t : Nat) (last : Option String) : Except String SpecDoc × Nat :=
  if t < deadline then
    match (fetch_spec base_url (attemptProbe i) probes).1 with
    | .ok doc => (.ok doc, i + 1)
    | .error e => retryLoop base_url probes attemptProbe dur deadline (i + 1) (t + dur i + 5) (some e)
  else retryFinish base_url i last
termination_by deadline - t
decreasing_by omega

/-- `fetch_spec_with_retry(base_url, probe_paths, timeout)`
(discover_routes.py:285-296): the deadline is `time.time() + timeout`,
computed once at entry (`t0` is the entry clock value). -/
def fetch_spec_with_retry (base_url : String) (probes : List String)
    (attemptProbe : Nat → String → ProbeOutcome) (dur : Nat → Nat)
    (t0 timeout : Nat) : Except String SpecDoc × Nat :=
  retryLoop base_url probes attemptProbe dur (t0 + timeout) 0 t0 none

/-- Python exceptions that can escape the probe-and-extract sequence of
`discover_from_chute_file`. -/
inductive PyErr where
  | runtimeError (msg : String)
  | calledProcessError
deriving DecidableEq

/-- Observable side effects of the probe-and-extract sequence and its cleanup;
the docker actions name the container they act on. -/
inductive Act where
  | waitLogs (cid : String)
  | getHostUrl (cid : String) (port : Int)
  | fetchWithRetry (port : Int)
  | warnLog (msg : String)
  | dockerStop (cid : String)
  | dockerRmForce (cid : String)
deriving DecidableEq

/-- `subprocess.run` reduced to its raising behaviour: with `check=True` a
nonzero exit status raises `CalledProcessError`; with `check=False` it never
raises. -/
def subprocessRun (check : Bool) (exitCode : Int) : Except PyErr Int :=
  if check ∧ exitCode ≠ 0 then .error .calledProcessError else .ok exitCode

/-- `stop_container(container_id)` (discover_routes.py:265-267): `docker stop`
then `docker rm -f`, both via `subprocess.run(..., check=False)`.  The exit
codes of the two commands are inputs; the returned trace records the two
actions. -/
def stop_container (cid : String) (stopExit rmExit : Int) :
    Except PyErr Unit × List Act :=
  match subprocessRun false stopExit with
  | .error e => (.error e, [Act.dockerStop cid])
  | .ok _ =>
    match subprocessRun false rmExit with
    | .error e => (.error e, [Act.dockerStop cid, Act.dockerRmForce cid])
    | .ok _ => (.ok (), [Act.dockerStop cid, Act.dockerRmForce cid])

/-- Per-port outcomes of the probe loop body in `discover_from_chute_file`:
`get_host_url` runs `docker port` with `check=True` (so it can raise), and
`fetch_spec_with_retry`'s outcome is a `RuntimeError` message or a document
(its internals are modelled separately by `fetch_spec_with_retry`). -/
structure PortProbe where
  hostUrl : Except PyErr String
  fetchRes : Except String SpecDoc

/-- The `for port in ports` loop of `discover_from_chute_file`
(discover_routes.py:192-199): a `get_host_url` failure propagates out of the
loop; a `fetch_spec_with_retry` `RuntimeError` is caught, logged with
`[warn]`, and the port is skipped; a fetched spec contributes
`extract_routes(spec, port)`. -/
def probePorts (cid : String) (acc : List Route) :
    List (Int × PortProbe) → Except PyErr (List Route) × List Act
  | [] => (.ok acc, [])
  | (port, pr) :: rest =>
    match pr.hostUrl with
    | .error e => (.error e, [Act.getHostUrl cid port])
    | .ok _ =>
      match pr.fetchRes with
      | .error msg =>
        let r := probePorts cid acc rest
        (r.1, Act.getHostUrl cid port :: Act.fetchWithRetry port :: Act.warnLog msg :: r.2)
      | .ok doc =>
        let r := probePorts cid (acc ++ extract_routes doc port) rest
        (r.1, Act.getHostUrl cid port :: Act.fetchWithRetry port :: r.2)

/-- The manifest payload `{"routes": ..., "source": name}` returned by
`discover_from_chute_file` (discover_routes.py:202). -/
structure Payload where
  routes : List Route
  source : String
deriving DecidableEq

/-- The `try ... finally stop_container(container_id)` region of
`discover_from_chute_file` (discover_routes.py:189-204), entered once
`start_container` has succeeded: wait for startup, run the probe loop, raise
when no routes were discovered, and run `stop_container` on the way out of
every path.  Returns the overall outcome and the action trace. -/
def discover_probe_and_cleanup (cid name : String) (probes : List (Int × PortProbe))
    (stopExit rmExit : Int) : Except PyErr Payload × List Act :=
  let body := probePorts cid [] probes
  let res : Except PyErr Payload :=
    match body.1 with
    | .error e => .error e
    | .ok routes =>
      if routes.isEmpty then .error (.runtimeError "No routes discovered from any exposed ports.")
      else .ok ⟨routes, name⟩
  let cleanup := stop_container cid stopExit rmExit
  (res, Act.waitLogs cid :: body.2 ++ cleanup.2)

/-- JSON values, as `json.loads` produces them. -/
inductive Json where
  | null
  | bool (b : Bool)
  | num (n : Int)
  | str (s : String)
  | arr (xs : List Json)
  | obj (fields : List (String × Json))

/-- Python `dict.get` on a JSON object's fields. -/
def jsonGet (fields : List (String × Json)) (k : String) : Option Json :=
  (fields.find? (fun f => f.1 == k)).map (fun f => f.2)

/-- `_parse_routes_json(raw)` (chute_wrappers.py:641-650), taking the outcome
of `json.loads(raw)` (the standard-library parser, an external collaborator)
as input: a decode failure becomes `ValueError("Invalid route manifest JSON: "
+ exc)`; a dict is replaced by its `routes` value (default `[]`); anything
that is then not a list raises; a list is returned as the route list. -/
def parse_routes_json (parsed : Except String Json) : Except String (List Json) :=
  match parsed with
  | .error e => .error ("Invalid route manifest JSON: " ++ e)
  | .ok data =>
    let data2 := match data with
      | .obj fields => (jsonGet fields "routes").getD (Json.arr [])
      | other => other
    match data2 with
    | .arr xs => .ok xs
    | _ => .error "Route manifest must be a list or contain a 'routes' list"

/-- The arguments `_register_single_route` passes to `chute.cord(...)`
(chute_wrappers.py:670-679). -/
structure CordCall where
  path : String
  public_api_path : String
  public_api_method : String
  method : String
  passthrough : Bool
  passthrough_port : Int
  passthrough_path : String
  stream : Bool
deriving DecidableEq

/-- `_register_single_route(chute, route, idx, default_port)`
(chute_wrappers.py:653-686): compute the cord arguments and the generated
handler's function name.  Note `idx` is accepted but never used.  Python `or`
chains treat `None` and `""`/`0` as falsy (`pyOrStr`/`pyOrInt`). -/
def register_single_route (route : Route) (idx : Nat) (default_port : Int) :
    CordCall × String :=
  let public_path := pyOrStr route.public_api_path route.path
  let method := pyUpper (route.method.getD "GET")
  let passthrough_path := pyOrStr route.passthrough_path (route.target_path.getD public_path)
  let passthrough_port := pyOrInt route.passthrough_port (route.port.getD default_port)
  let stream := route.stream.getD false
  let cord_meta := route.cord.getD {}
  let internal_path := pyOrStr cord_meta.path (pyOrStr route.internal_path public_path)
  let function_name :=
    pyOrStr route.function_name
      (pyOrStr cord_meta.function_name ("cord_" ++ internal_path))
  let _ := idx
  ({ path := internal_path,
     public_api_path := cord_meta.public_api_path.getD public_path,
     public_api_method := cord_meta.public_api_method.getD method,
     method := cord_meta.method.getD method,
     passthrough := cord_meta.passthrough.getD true,
     passthrough_port := cord_meta.passthrough_port.getD passthrough_port,
     passthrough_path := cord_meta.passthrough_path.getD passthrough_path,
     stream := cord_meta.stream.getD stream }, function_name)

/-- The registration loop of `register_passthrough_routes`
(chute_wrappers.py:477-489): skip ineligible paths, register the rest, and
count registrations (the count is what the code passes as `idx`). -/
def registerLoopFrom (registered : Nat) (default_port : Int) :
    List Route → List (CordCall × String)
  | [] => []
  | r :: rest =>
    match should_skip_route r.path with
    | some _ => registerLoopFrom registered default_port rest
    | none =>
      register_single_route r registered default_port ::
        registerLoopFrom (registered + 1) default_port rest

/-- `register_passthrough_routes(chute, routes, default_port)`: the list of
cord registrations performed, in order. -/
def register_passthrough_routes (routes : List Route) (default_port : Int) :
    List (CordCall × String) :=
  registerLoopFrom 0 default_port routes

/-- Python `re.sub(r'[^a-zA-Z0-9_]', '_', s)` (create_chute_from_image.py:353). -/
def subNonAlnum (s : String) : String :=
  ⟨s.data.map (fun c => if c.isAlphanum || c = '_' then c else '_')⟩

/-- Python `re.sub(r'_+', '_', s)` (create_chute_from_image.py:355): keep one
`_` per run; `prev` records whether the previous character was a kept `_`. -/
def collapseUnderscoresAux (prev : Bool) : List Char → List Char
  | [] => []
  | c :: rest =>
    if c = '_' then
      if prev then collapseUnderscoresAux true rest
      else '_' :: collapseUnderscoresAux true rest
    else c :: collapseUnderscoresAux false rest

/-- Python `re.sub(r'_+', '_', s)` (create_chute_from_image.py:355). -/
def collapseUnderscores (l : List Char) : List Char :=
  collapseUnderscoresAux false l

/-- The path sanitisation of `generate_route_code`
(create_chute_from_image.py:352-357): replace non-alphanumerics of the
`/`-stripped path by `_`, collapse runs of `_`, strip leading/trailing `_`. -/
def sanitizePath (path : String) : String :=
  pyStripChar ⟨collapseUnderscores (subNonAlnum (pyStripChar path '/')).data⟩ '_'

/-- `_make_unique_name(base, tracker)` (create_chute_from_image.py:334-341):
first use of a base returns it unchanged; the n-th repeat returns
`base_(n)`.  The tracker dict is embedded as a function with default 0. -/
def make_unique_name (base : String) (tracker : String → Nat) :
    String × (String → Nat) :=
  let count := tracker base
  if count = 0 then (base, fun k => if k = base then 1 else tracker k)
  else (base ++ "_" ++ Nat.repr (count + 1), fun k => if k = base then count + 1 else tracker k)

/-- The base identifier `generate_route_code` derives from a route's method
and path (create_chute_from_image.py:359-366), before uniquification. -/
def routeBaseName (path method : String) : String :=
  let sanitized := sanitizePath path
  let base := pyLower method ++ "_" ++ sanitized
  let base := if pyStartsWith (⟨base.data.reverse⟩) "_" then base ++ "root" else base
  if base = "" then pyLower method ++ "_route"
  else if (base.data.head?.getD ' ').isDigit then "fn_" ++ base
  else base

/-- `generate_route_code(route, name_tracker)` reduced to the function
identifier it emits (create_chute_from_image.py:343-372): the sanitised
method+path base, uniquified through the shared tracker. -/
def generate_route_code (path method : String) (tracker : String → Nat) :
    String × (String → Nat) :=
  make_unique_name (routeBaseName path method) tracker

/-- Folding `generate_route_code` over a manifest's `(path, method)` pairs
with one shared tracker, as `create_chute_from_image.main` does: the list of
emitted function identifiers. -/
def generateRouteNames (tracker : String → Nat) :
    List (String × String) → List String
  | [] => []
  | (path, method) :: rest =>
    let r := generate_route_code path method tracker
    r.1 :: generateRouteNames r.2 rest

/-! ## Theorems -/

lemma rstrip_startsWith_mono (path p : String)
    (h : pyStartsWith (pyRstripSlashes path) p = true) : pyStartsWith path p = true := by
  unfold pyStartsWith pyRstripSlashes at *
  rw [List.isPrefixOf_iff_prefix] at h ⊢
  refine h.trans ?_
  have hs : path.data.reverse.dropWhile (fun c => c == '/') <:+ path.data.reverse :=
    List.dropWhile_suffix _
  have := List.reverse_prefix.mpr hs
  simpa using this

/-- Claim C4: `_should_skip_route` rejects exactly the paths containing `{`
or `}`, the paths containing a literal `.`, the empty path and `/`, and the
paths starting with one of the fixed internal-prefix set (the
`rstrip("/")` variant of the startswith test adds nothing, since stripping
trailing slashes keeps a prefix of the path); in particular
`/static/app.js`, `/items/{id}`, `/`, the empty path and `/a.html` are
excluded from registration while `/generate` and `/v1/chat` are registered. -/
theorem C4_registration_eligibility_filter :
    (∀ path : String,
      (should_skip_route path).isSome = true ↔
        (pyContainsChar path '{' = true ∨ pyContainsChar path '}' = true ∨
         pyContainsChar path '.' = true ∨ path = "" ∨ path = "/" ∨
         ∃ p ∈ SKIP_PATH_STARTS, pyStartsWith path p = true))
    ∧ (should_skip_route "/static/app.js").isSome = true
    ∧ (should_skip_route "/items/{id}").isSome = true
    ∧ (should_skip_route "/").isSome = true
    ∧ (should_skip_route "").isSome = true
    ∧ (should_skip_route "/a.html").isSome = true
    ∧ should_skip_route "/generate" = none
    ∧ should_skip_route "/v1/chat" = none := by
  refine ⟨fun path => ?_, by decide, by decide, by decide, by decide, by decide, by decide, by decide⟩
  unfold should_skip_route
  split_ifs with h1 h2 h3 h4
  · simp only [Option.isSome_some, true_iff]
    rcases Bool.or_eq_true _ _ |>.mp h1 with h | h
    · exact Or.inl h
    · exact Or.inr (Or.inl h)
  · simp only [Option.isSome_some, true_iff]
    exact Or.inr (Or.inr (Or.inl h2))
  · simp only [Option.isSome_some, true_iff]
    have : path ∈ SKIP_PATHS_EXACT := by
      simpa [SKIP_PATHS_EXACT] using h3
    simp only [SKIP_PATHS_EXACT, List.mem_cons, List.mem_singleton] at this
    tauto
  · simp only [Option.isSome_some, true_iff]
    rw [List.any_eq_true] at h4
    obtain ⟨p, hp, hcond⟩ := h4
    rcases Bool.or_eq_true _ _ |>.mp hcond with h | h
    · exact Or.inr (Or.inr (Or.inr (Or.inr (Or.inr ⟨p, hp, h⟩))))
    · exact Or.inr (Or.inr (Or.inr (Or.inr (Or.inr ⟨p, hp, rstrip_startsWith_mono path p h⟩))))
  · simp only [Option.isSome_none, Bool.false_eq_true, false_iff]
    intro hcon
    rcases hcon with h | h | h | h | h | ⟨p, hp, h⟩
    · exact h1 (by simp [h])
    · exact h1 (by simp [h])
    · exact h2 h
    · exact h3 (by simp [h, SKIP_PATHS_EXACT])
    · exact h3 (by simp [h, SKIP_PATHS_EXACT])
    · exact h4 (List.any_eq_true.mpr ⟨p, hp, by simp [h]⟩)

lemma foldl_append_filter_map {α β : Type} (c : α → Bool) (f : α → β)
    (l : List α) (acc : List β) :
    l.foldl (fun acc x => if c x then acc ++ [f x] else acc) acc
      = acc ++ (l.filter c).map f := by
  induction l generalizing acc with
  | nil => simp
  | cons hd tl ih =>
    by_cases h : c hd
    · simp [h, ih, List.filter_cons, List.append_assoc]
    · simp [h, ih, List.filter_cons]

lemma extract_routes_foldl_general (dp : Int)
    (paths : List (String × List (String × Operation))) (acc : List Route) :
    paths.foldl
      (fun routes pm =>
        pm.2.foldl
          (fun routes md =>
            if SUPPORTED_METHODS.contains (pyLower md.1) then
              routes ++ [{ path := pm.1, method := some (pyUpper md.1),
                           port := some dp, target_path := some pm.1,
                           stream := some (md.2.xStream.getD false) }]
            else routes)
          routes)
      acc
    = acc ++ paths.flatMap (fun pm =>
        (pm.2.filter (fun md => SUPPORTED_METHODS.contains (pyLower md.1))).map
          (fun md => ({ path := pm.1, method := some (pyUpper md.1),
                        port := some dp, target_path := some pm.1,
                        stream := some (md.2.xStream.getD false) } : Route))) := by
  induction paths generalizing acc with
  | nil => simp
  | cons hd tl ih =>
    rw [List.foldl_cons, foldl_append_filter_map, ih]
    simp [List.append_assoc]

lemma extract_routes_eq_filterMap (spec : SpecDoc) (default_port : Int) :
    extract_routes spec default_port = extractRoutesFilterMap spec default_port := by
  unfold extract_routes extractRoutesFilterMap extractedRoute
  simpa using extract_routes_foldl_general default_port (spec.pathsMap.getD []) []

/-- Claim C2: `extract_routes` produces one descriptor per `(path, method)`
pair of the schema's paths mapping whose method is in the supported set
(matched case-insensitively, so e.g. `options` and `head` entries are
dropped), each descriptor carrying the upper-cased method,
`target_path = path`, `port = default_port`, and the operation's
`x-stream` marker (default `false`); the spec's filtering example
(`/x` with `get` and `options`) yields exactly `GET /x`. -/
theorem C2_extract_routes_shape :
    ∀ (spec : SpecDoc) (default_port : Int),
      extract_routes spec default_port = extractRoutesFilterMap spec default_port
      ∧ (∀ r, r ∈ extract_routes spec default_port ↔
          ∃ pm ∈ spec.pathsMap.getD [], ∃ md ∈ pm.2,
            SUPPORTED_METHODS.contains (pyLower md.1) = true ∧
            r = extractedRoute pm.1 md.1 md.2 default_port)
      ∧ (∀ r ∈ extract_routes spec default_port,
          r.port = some default_port ∧ r.target_path = some r.path)
      ∧ extract_routes
          ⟨some [("/x", [("get", ⟨none⟩), ("options", ⟨none⟩)])]⟩ 9001
          = [extractedRoute "/x" "get" ⟨none⟩ 9001] := by
  intro spec dp
  have hmem : ∀ r, r ∈ extract_routes spec dp ↔
      ∃ pm ∈ spec.pathsMap.getD [], ∃ md ∈ pm.2,
        SUPPORTED_METHODS.contains (pyLower md.1) = true ∧
        r = extractedRoute pm.1 md.1 md.2 dp := by
    intro r
    rw [extract_routes_eq_filterMap]
    unfold extractRoutesFilterMap
    simp only [List.mem_flatMap, List.mem_map, List.mem_filter]
    constructor
    · rintro ⟨pm, hpm, md, ⟨hmd, hc⟩, hr⟩
      exact ⟨pm, hpm, md, hmd, hc, hr.symm⟩
    · rintro ⟨pm, hpm, md, hmd, hc, hr⟩
      exact ⟨pm, hpm, md, ⟨hmd, hc⟩, hr.symm⟩
  refine ⟨extract_routes_eq_filterMap spec dp, hmem, fun r hr => ?_, by decide⟩
  obtain ⟨pm, _, md, _, _, hr⟩ := (hmem r).mp hr
  subst hr
  simp [extractedRoute]

/-- Claim C2, witnessed on the spec's own filtering example. -/
theorem C2_extract_routes_shape_witness :
    (extractedRoute "/x" "get" ⟨none⟩ 9001).port = some 9001 ∧
    (extractedRoute "/x" "get" ⟨none⟩ 9001).target_path
      = some (extractedRoute "/x" "get" ⟨none⟩ 9001).path :=
  (C2_extract_routes_shape ⟨some [("/x", [("get", ⟨none⟩), ("options", ⟨none⟩)])]⟩ 9001).2.2.1
    (extractedRoute "/x" "get" ⟨none⟩ 9001) (by decide)

/-- Claim C9: `_parse_routes_json` accepts both a JSON object carrying a
`routes` array and a bare JSON array (returning the same route list in both
cases); a `json.loads` failure surfaces the underlying parse error inside the
`Invalid route manifest JSON` failure, and any other top-level shape — a
string, number, boolean, null, or an object whose `routes` value is not a
list — fails with the wrong-shape error. -/
theorem C9_parse_routes_json :
    (∀ L : List Json, parse_routes_json (.ok (Json.arr L)) = .ok L)
    ∧ (∀ (fields : List (String × Json)) (L : List Json),
        jsonGet fields "routes" = some (Json.arr L) →
        parse_routes_json (.ok (Json.obj fields)) = .ok L)
    ∧ (∀ e : String, parse_routes_json (.error e)
        = .error ("Invalid route manifest JSON: " ++ e))
    ∧ (∀ s, parse_routes_json (.ok (Json.str s))
        = .error "Route manifest must be a list or contain a 'routes' list")
    ∧ (∀ n, parse_routes_json (.ok (Json.num n))
        = .error "Route manifest must be a list or contain a 'routes' list")
    ∧ (∀ b, parse_routes_json (.ok (Json.bool b))
        = .error "Route manifest must be a list or contain a 'routes' list")
    ∧ parse_routes_json (.ok Json.null)
        = .error "Route manifest must be a list or contain a 'routes' list"
    ∧ (∀ (fields : List (String × Json)) (s : String),
        jsonGet fields "routes" = some (Json.str s) →
        parse_routes_json (.ok (Json.obj fields))
          = .error "Route manifest must be a list or contain a 'routes' list") := by
  refine ⟨fun L => rfl, fun fields L h => ?_, fun e => rfl, fun s => rfl,
    fun n => rfl, fun b => rfl, rfl, fun fields s h => ?_⟩
  · simp [parse_routes_json, h]
  · simp [parse_routes_json, h]

/-- Claim C9, witnessed on a one-entry object manifest. -/
theorem C9_parse_routes_json_witness :
    jsonGet [("routes", Json.arr [])] "routes" = some (Json.arr []) ∧
    parse_routes_json (.ok (Json.obj [("routes", Json.arr [])])) = .ok [] :=
  ⟨rfl, C9_parse_routes_json.2.1 [("routes", Json.arr [])] [] rfl⟩

/-- Claim C10: a route dict lacking a `method` key is treated as `GET` both by
the merge key of `load_route_manifest` and by `_register_single_route`, so a
discovered `GET` route and a method-less declared route for the same path
collide on one identity key (the declared one is recorded as a duplicate and
skipped) instead of both appearing in the merged manifest. -/
theorem C10_missing_method_defaults_to_get :
    (∀ r : Route, r.method = none → routeKey r = (r.path, "GET"))
    ∧ (∀ r r' : Route, r.method = some "GET" → r'.method = none → r.path = r'.path →
        routeKey r = routeKey r')
    ∧ (∀ (r : Route) (idx : Nat) (dp : Int), r.method = none → r.cord = none →
        (register_single_route r idx dp).1.method = "GET"
        ∧ (register_single_route r idx dp).1.public_api_method = "GET")
    ∧ (load_route_manifest_merge
        [{ path := "/a", method := some "GET", port := some 1, target_path := some "/a" }]
        [{ path := "/a", port := some 1, target_path := some "/a" }]).routes
      = [{ path := "/a", method := some "GET", port := some 1, target_path := some "/a" }]
    ∧ (load_route_manifest_merge
        [{ path := "/a", method := some "GET", port := some 1, target_path := some "/a" }]
        [{ path := "/a", port := some 1, target_path := some "/a" }]).duplicates
      = [("/a", "GET")] := by
  refine ⟨fun r h => ?_, fun r r' hm hm' hp => ?_, fun r idx dp hm hc => ?_, by decide, by decide⟩
  · unfold routeKey
    rw [h]
    rfl
  · unfold routeKey
    rw [hm, hm', hp]
    rfl
  · constructor
    · simp [register_single_route, hm, hc]
      rfl
    · simp [register_single_route, hm, hc]
      rfl

/-- Claim C10, witnessed on a path-only route dict. -/
theorem C10_missing_method_defaults_to_get_witness :
    (register_single_route { path := "/a" } 0 8000).1.method = "GET"
    ∧ (register_single_route { path := "/a" } 0 8000).1.public_api_method = "GET" :=
  C10_missing_method_defaults_to_get.2.2.1 { path := "/a" } 0 8000 rfl rfl

lemma probeHit_of_parsed {probe : String → ProbeOutcome} {p : String} {doc : SpecDoc}
    (h : probe p = .parsed doc) : probeHit probe p = doc.pathsMap.isSome := by
  simp [probeHit, h]

lemma fetch_spec_trace_eq (b : String) (probe : String → ProbeOutcome) :
    ∀ probes : List String,
      (fetch_spec b probe probes).2
        = probes.takeWhile (fun p => !probeHit probe p)
            ++ (probes.find? (probeHit probe)).toList
  | [] => by simp [fetch_spec]
  | p :: rest => by
    have step : ∀ rest' : List String, probeHit probe p = false →
        p :: (List.takeWhile (fun q => !probeHit probe q) rest'
              ++ (List.find? (probeHit probe) rest').toList)
          = List.takeWhile (fun q => !probeHit probe q) (p :: rest')
              ++ (List.find? (probeHit probe) (p :: rest')).toList := by
      intro rest' hh
      have ht : List.takeWhile (fun q => !probeHit probe q) (p :: rest')
          = p :: List.takeWhile (fun q => !probeHit probe q) rest' :=
        List.takeWhile_cons_of_pos (by simp [hh])
      have hf : List.find? (probeHit probe) (p :: rest')
          = List.find? (probeHit probe) rest' :=
        List.find?_cons_of_neg _ (by simp [hh])
      simp [ht, hf]
    unfold fetch_spec
    cases h : probe p with
    | parsed doc =>
      by_cases hs : doc.pathsMap.isSome = true
      · have hh : probeHit probe p = true := by rw [probeHit_of_parsed h, hs]
        simp [hs, hh, List.find?_cons_of_pos _ hh]
      · have hh : probeHit probe p = false := by
          rw [probeHit_of_parsed h]
          exact Bool.not_eq_true _ |>.mp hs
        simp only [hs, if_false]
        rw [← step rest hh]
        simp [fetch_spec_trace_eq b probe rest]
    | networkError =>
      have hh : probeHit probe p = false := by simp [probeHit, h]
      rw [← step rest hh]
      simp [fetch_spec_trace_eq b probe rest]
    | httpStatusError =>
      have hh : probeHit probe p = false := by simp [probeHit, h]
      rw [← step rest hh]
      simp [fetch_spec_trace_eq b probe rest]
    | jsonDecodeError =>
      have hh : probeHit probe p = false := by simp [probeHit, h]
      rw [← step rest hh]
      simp [fetch_spec_trace_eq b probe rest]

lemma fetch_spec_all_miss (b : String) (probe : String → ProbeOutcome) :
    ∀ probes : List String, (∀ p ∈ probes, probeHit probe p = false) →
      (fetch_spec b probe probes).1 = .error ("Unable to fetch OpenAPI spec from " ++ b)
  | [] => by
    intro _
    simp [fetch_spec]
  | p :: rest => by
    intro hall
    have hh : probeHit probe p = false := hall p (by simp)
    have hrec := fetch_spec_all_miss b probe rest (fun q hq => hall q (by simp [hq]))
    unfold fetch_spec
    cases h : probe p with
    | parsed doc =>
      have hs : doc.pathsMap.isSome = false := by rw [probeHit_of_parsed h] at hh; exact hh
      simp [hs, hrec]
    | networkError => simpa using hrec
    | httpStatusError => simpa using hrec
    | jsonDecodeError => simpa using hrec

lemma fetch_spec_first_hit (b : String) (probe : String → ProbeOutcome) :
    ∀ (probes : List String) (p : String), probes.find? (probeHit probe) = some p →
      ∃ doc, probe p = .parsed doc ∧ doc.pathsMap.isSome = true ∧
        (fetch_spec b probe probes).1 = .ok doc
  | [] => by
    intro p hfind
    simp at hfind
  | q :: rest => by
    intro p hfind
    by_cases hh : probeHit probe q = true
    · rw [List.find?_cons_of_pos _ hh] at hfind
      obtain rfl : q = p := by injection hfind
      cases hq : probe q with
      | parsed doc =>
        have hs : doc.pathsMap.isSome = true := by rw [probeHit_of_parsed hq] at hh; exact hh
        refine ⟨doc, rfl, hs, ?_⟩
        unfold fetch_spec
        simp [hq, hs]
      | networkError => simp [probeHit, hq] at hh
      | httpStatusError => simp [probeHit, hq] at hh
      | jsonDecodeError => simp [probeHit, hq] at hh
    · rw [List.find?_cons_of_neg _ hh] at hfind
      obtain ⟨doc, h1, h2, h3⟩ := fetch_spec_first_hit b probe rest p hfind
      refine ⟨doc, h1, h2, ?_⟩
      unfold fetch_spec
      cases hq : probe q with
      | parsed d =>
        have hs : d.pathsMap.isSome = false := by
          rw [probeHit_of_parsed hq] at hh
          exact Bool.not_eq_true _ |>.mp hh
        simp [hs, h3]
      | networkError => simpa using h3
      | httpStatusError => simpa using h3
      | jsonDecodeError => simpa using h3

/-- Claim C5: `fetch_spec` walks the candidate list once in order (the GET
trace is the failing elements up to and including the first hit), silently
skips probes whose outcome is a network error, a non-2xx status, an
undecodable body, or a parsed document without a `paths` key, returns the
document of the first hit, and raises the `RuntimeError` naming the base URL
when no candidate hits. -/
theorem C5_fetch_spec_first_hit_or_failure :
    ∀ (base_url : String) (probe : String → ProbeOutcome) (probes : List String),
      (fetch_spec base_url probe probes).2
        = probes.takeWhile (fun p => !probeHit probe p)
            ++ (probes.find? (probeHit probe)).toList
      ∧ ((∀ p ∈ probes, probeHit probe p = false) →
          (fetch_spec base_url probe probes).1
            = .error ("Unable to fetch OpenAPI spec from " ++ base_url))
      ∧ (∀ p, probes.find? (probeHit probe) = some p →
          ∃ doc, probe p = .parsed doc ∧ doc.pathsMap.isSome = true ∧
            (fetch_spec base_url probe probes).1 = .ok doc) :=
  fun b probe probes =>
    ⟨fetch_spec_trace_eq b probe probes, fetch_spec_all_miss b probe probes,
     fun p => fetch_spec_first_hit b probe probes p⟩

/-- Claim C5, witnessed on two probes that both fail with a network error. -/
theorem C5_fetch_spec_first_hit_or_failure_witness :
    (fetch_spec "http://h" (fun _ => ProbeOutcome.networkError) ["/a", "/b"]).1
      = .error ("Unable to fetch OpenAPI spec from " ++ "http://h") :=
  (C5_fetch_spec_first_hit_or_failure "http://h" (fun _ => ProbeOutcome.networkError)
    ["/a", "/b"]).2.1 (by decide)

lemma stop_container_eval (cid : String) (stopExit rmExit : Int) :
    stop_container cid stopExit rmExit
      = (.ok (), [Act.dockerStop cid, Act.dockerRmForce cid]) := by
  simp [stop_container, subprocessRun]

lemma probePorts_no_cleanup_actions (cid : String) :
    ∀ (probes : List (Int × PortProbe)) (acc : List Route),
      Act.dockerStop cid ∉ (probePorts cid acc probes).2
      ∧ Act.dockerRmForce cid ∉ (probePorts cid acc probes).2
  | [], acc => by simp [probePorts]
  | (port, pr) :: rest, acc => by
    unfold probePorts
    cases pr.hostUrl with
    | error e => simp
    | ok u =>
      cases pr.fetchRes with
      | error msg =>
        have ih := probePorts_no_cleanup_actions cid rest acc
        simp [ih.1, ih.2]
      | ok doc =>
        have ih := probePorts_no_cleanup_actions cid rest (acc ++ extract_routes doc port)
        simp [ih.1, ih.2]

/-- Claim C3: once the probe container is started, every exit path of the
probe-and-extract sequence — normal return, the no-routes `RuntimeError`, a
propagating per-port failure — runs `stop_container` exactly once, as the
final actions of the trace; and `stop_container` itself never raises, because
both its `docker stop` and its `docker rm -f` run with `check=False`,
whatever their exit codes. -/
theorem C3_cleanup_on_all_paths :
    ∀ (cid name : String) (probes : List (Int × PortProbe)) (stopExit rmExit : Int),
      (discover_probe_and_cleanup cid name probes stopExit rmExit).2
          = (Act.waitLogs cid :: (probePorts cid [] probes).2)
              ++ [Act.dockerStop cid, Act.dockerRmForce cid]
      ∧ Act.dockerStop cid ∉ Act.waitLogs cid :: (probePorts cid [] probes).2
      ∧ Act.dockerRmForce cid ∉ Act.waitLogs cid :: (probePorts cid [] probes).2
      ∧ (discover_probe_and_cleanup cid name probes stopExit rmExit).2.count
          (Act.dockerStop cid) = 1
      ∧ (discover_probe_and_cleanup cid name probes stopExit rmExit).2.count
          (Act.dockerRmForce cid) = 1
      ∧ (stop_container cid stopExit rmExit).1 = .ok () := by
  intro cid name probes stopExit rmExit
  have hbody := probePorts_no_cleanup_actions cid probes []
  have htrace : (discover_probe_and_cleanup cid name probes stopExit rmExit).2
      = (Act.waitLogs cid :: (probePorts cid [] probes).2)
          ++ [Act.dockerStop cid, Act.dockerRmForce cid] := by
    simp [discover_probe_and_cleanup, stop_container_eval]
  refine ⟨htrace, by simp [hbody.1], by simp [hbody.2], ?_, ?_, by simp [stop_container_eval]⟩
  · rw [htrace]
    rw [List.count_append]
    rw [List.count_eq_zero.mpr (by simp [hbody.1])]
    simp [List.count_cons]
  · rw [htrace]
    rw [List.count_append]
    rw [List.count_eq_zero.mpr (by simp [hbody.2])]
    simp [List.count_cons]

/-- Claim C3, witnessed on an empty port list with nonzero docker exit codes. -/
theorem C3_cleanup_on_all_paths_witness :
    (discover_probe_and_cleanup "c" "n" [] 1 1).2
        = (Act.waitLogs "c" :: (probePorts "c" [] []).2)
            ++ [Act.dockerStop "c", Act.dockerRmForce "c"]
    ∧ Act.dockerStop "c" ∉ Act.waitLogs "c" :: (probePorts "c" [] []).2
    ∧ Act.dockerRmForce "c" ∉ Act.waitLogs "c" :: (probePorts "c" [] []).2
    ∧ (discover_probe_and_cleanup "c" "n" [] 1 1).2.count (Act.dockerStop "c") = 1
    ∧ (discover_probe_and_cleanup "c" "n" [] 1 1).2.count (Act.dockerRmForce "c") = 1
    ∧ (stop_container "c" 1 1).1 = .ok () :=
  C3_cleanup_on_all_paths "c" "n" [] 1 1

/-- Claim C1 is keyed over the working set, not over `D`: with `D = []` and
two identical declared entries, the claim as stated (keys checked against
`D` alone) would append both, but the code appends the first and then skips
the second as a duplicate of it, so the claimed route list is wrong. -/
theorem C1_counterexample_key_over_discovered_only :
    ¬ C1KeyedOverD []
      [{ path := "/a", method := some "GET", port := some 1, target_path := some "/a" },
       { path := "/a", method := some "GET", port := some 1, target_path := some "/a" }] := by
  unfold C1KeyedOverD
  decide

lemma buildExisting_eq (routes : List Route) (k : String × String) :
    buildExisting routes k = routes.reverse.find? (fun r => decide (routeKey r = k)) := by
  induction routes using List.reverseRecOn with
  | nil => simp [buildExisting]
  | append_singleton l r ih =>
    have hb : buildExisting (l ++ [r])
        = fun k => if k = routeKey r then some r else buildExisting l k := by
      unfold buildExisting
      rw [List.foldl_append]
      rfl
    rw [hb, List.reverse_append]
    simp only [List.reverse_singleton, List.singleton_append]
    by_cases h : k = routeKey r
    · rw [if_pos h, List.find?_cons_of_pos _ (by simp [h])]
    · rw [if_neg h, List.find?_cons_of_neg _ (by simp; exact fun hh => h hh.symm), ih]

lemma mergeLoop_eq_workingSet :
    ∀ (S : List Route) (existing : (String × String) → Option Route)
      (work : List Route) (warns dups : List (String × String)),
      (∀ k, existing k = work.reverse.find? (fun r => decide (routeKey r = k))) →
      mergeLoop existing work warns dups S = mergeWorkingSet work warns dups S
  | [], existing, work, warns, dups, hinv => rfl
  | s :: rest, existing, work, warns, dups, hinv => by
    have hfind : work.reverse.find? (fun r => decide (routeKey r = routeKey s))
        = existing (routeKey s) := (hinv _).symm
    unfold mergeLoop mergeWorkingSet
    cases hx : existing (routeKey s) with
    | some w =>
      rw [hx] at hfind
      simp only [hx, hfind]
      by_cases hd : s.port ≠ w.port ∨ s.target_path ≠ w.target_path
      · rw [if_pos hd, if_pos hd]
        exact mergeLoop_eq_workingSet rest existing work _ _ hinv
      · rw [if_neg hd, if_neg hd]
        exact mergeLoop_eq_workingSet rest existing work _ _ hinv
    | none =>
      rw [hx] at hfind
      simp only [hx, hfind]
      apply mergeLoop_eq_workingSet rest
      intro k
      by_cases hk : k = routeKey s
      · subst hk
        rw [List.reverse_append]
        simp only [List.reverse_singleton, List.singleton_append]
        rw [List.find?_cons_of_pos _ (by simp)]
        simp
      · rw [List.reverse_append]
        simp only [List.reverse_singleton, List.singleton_append]
        rw [List.find?_cons_of_neg _ (by simp; exact fun hh => hk hh.symm)]
        simp only [hk, if_false]
        exact hinv k

lemma mergeWorkingSet_routes_extend :
    ∀ (S work : List Route) (warns dups : List (String × String)),
      ∃ T, (mergeWorkingSet work warns dups S).routes = work ++ T ∧ T.Sublist S
  | [], work, warns, dups => ⟨[], by simp [mergeWorkingSet], List.nil_sublist _⟩
  | s :: rest, work, warns, dups => by
    unfold mergeWorkingSet
    split
    next w hfound =>
      by_cases hd : s.port ≠ w.port ∨ s.target_path ≠ w.target_path
      · rw [if_pos hd]
        obtain ⟨T, hT, hs⟩ := mergeWorkingSet_routes_extend rest work (warns ++ [routeKey s]) dups
        exact ⟨T, hT, hs.cons s⟩
      · rw [if_neg hd]
        obtain ⟨T, hT, hs⟩ := mergeWorkingSet_routes_extend rest work warns (dups ++ [routeKey s])
        exact ⟨T, hT, hs.cons s⟩
    next hnone =>
      obtain ⟨T, hT, hs⟩ := mergeWorkingSet_routes_extend rest (work ++ [s]) warns dups
      exact ⟨s :: T, by rw [hT]; simp, hs.cons₂ s⟩

lemma merge_eq_workingSetRun (D S : List Route) :
    load_route_manifest_merge D S = mergeWorkingSetRun D S := by
  unfold load_route_manifest_merge mergeWorkingSetRun
  by_cases h : S.isEmpty
  · rw [if_pos h, if_pos h]
  · rw [if_neg h, if_neg h]
    exact mergeLoop_eq_workingSet S (buildExisting D) D [] [] (buildExisting_eq D)

/-- Claim C1 (amended): the merge processes each declared entry against the
key `(path, upper-cased method)` over the evolving working set seeded from the
discovered list (so previously appended declared entries also block or
conflict with later ones): if the key is absent from the working set the entry
is appended at the end; if present with differing `port` or `target_path` a
conflict warning is emitted and the working set is unchanged (declared never
overrides); if present with matching fields the entry is skipped.  The merged
routes are always the discovered list followed by a subsequence of the
declared list. -/
theorem C1_merge_against_working_set :
    (∀ D S : List Route, load_route_manifest_merge D S = mergeWorkingSetRun D S)
    ∧ (∀ D S : List Route, ∃ T,
        (load_route_manifest_merge D S).routes = D ++ T ∧ T.Sublist S) := by
  refine ⟨merge_eq_workingSetRun, fun D S => ?_⟩
  rw [merge_eq_workingSetRun]
  unfold mergeWorkingSetRun
  by_cases h : S.isEmpty
  · rw [if_pos h]
    exact ⟨[], by simp, by simp [List.isEmpty_iff.mp h]⟩
  · rw [if_neg h]
    exact mergeWorkingSet_routes_extend S D [] []

lemma char_toUpper_toUpper (c : Char) : c.toUpper.toUpper = c.toUpper := by
  simp only [Char.toUpper]
  by_cases h : c.toNat ≥ 97 ∧ c.toNat ≤ 122
  · rw [if_pos h]
    obtain ⟨h1, h2⟩ := h
    set n := c.toNat with hn
    interval_cases n <;> decide
  · rw [if_neg h, if_neg h]

lemma pyUpper_idem (s : String) : pyUpper (pyUpper s) = pyUpper s := by
  unfold pyUpper
  apply congrArg
  rw [List.map_map]
  exact List.map_congr_left (fun c _ => char_toUpper_toUpper c)

lemma mergeWorkingSet_nodup_keys :
    ∀ (S work : List Route) (warns dups : List (String × String)),
      (work.map routeKey).Nodup →
      ((mergeWorkingSet work warns dups S).routes.map routeKey).Nodup
  | [], work, warns, dups => fun h => by simpa [mergeWorkingSet] using h
  | s :: rest, work, warns, dups => fun h => by
    unfold mergeWorkingSet
    split
    next w hfound =>
      by_cases hd : s.port ≠ w.port ∨ s.target_path ≠ w.target_path
      · rw [if_pos hd]
        exact mergeWorkingSet_nodup_keys rest work _ _ h
      · rw [if_neg hd]
        exact mergeWorkingSet_nodup_keys rest work _ _ h
    next hnone =>
      apply mergeWorkingSet_nodup_keys rest (work ++ [s])
      rw [List.map_append, List.nodup_append]
      refine ⟨h, by simp, ?_⟩
      intro k hk hks
      simp only [List.map_cons, List.map_nil, List.mem_singleton] at hks
      subst hks
      obtain ⟨r, hr, hkr⟩ := List.mem_map.mp hk
      have hnot := List.find?_eq_none.mp hnone r (List.mem_reverse.mpr hr)
      simp only [decide_eq_true_eq] at hnot
      exact hnot hkr

lemma extract_routes_nodup_keys (spec : SpecDoc) (port : Int)
    (hpaths : ((spec.pathsMap.getD []).map Prod.fst).Nodup)
    (hmethods : ∀ pm ∈ spec.pathsMap.getD [],
      (pm.2.map (fun md => pyUpper md.1)).Nodup) :
    ((extract_routes spec port).map routeKey).Nodup := by
  rw [extract_routes_eq_filterMap]
  unfold extractRoutesFilterMap
  rw [List.map_flatMap, List.nodup_flatMap]
  constructor
  · intro pm hpm
    rw [List.map_map]
    have hco : (routeKey ∘ fun md : String × Operation => extractedRoute pm.1 md.1 md.2 port)
        = (fun u => (pm.1, u)) ∘ (fun md : String × Operation => pyUpper md.1) := by
      funext md
      simp [routeKey, extractedRoute, pyUpper_idem]
    rw [hco, ← List.map_map]
    apply List.Nodup.map
    · intro a b hab
      simpa using hab
    · have hsub : List.Sublist
          ((pm.2.filter (fun md => SUPPORTED_METHODS.contains (pyLower md.1))).map
            (fun md : String × Operation => pyUpper md.1))
          (pm.2.map (fun md : String × Operation => pyUpper md.1)) :=
        (List.filter_sublist _).map _
      exact (hmethods pm hpm).sublist hsub
  · have hfst : ∀ pm : String × List (String × Operation),
        ∀ k ∈ ((pm.2.filter (fun md => SUPPORTED_METHODS.contains (pyLower md.1))).map
          (fun md => extractedRoute pm.1 md.1 md.2 port)).map routeKey, k.1 = pm.1 := by
      intro pm k hk
      rw [List.mem_map] at hk
      obtain ⟨r, hr, rfl⟩ := hk
      rw [List.mem_map] at hr
      obtain ⟨md, _, rfl⟩ := hr
      simp [extractedRoute, routeKey]
    have hp2 : (spec.pathsMap.getD []).Pairwise (fun a b => a.1 ≠ b.1) :=
      List.pairwise_map.mp hpaths
    refine hp2.imp ?_
    intro a b hne k hka hkb
    exact hne (by rw [← hfst a k hka, ← hfst b k hkb])

/-- Claim C7 fails for discovery runs over several ports: the per-port route
lists are concatenated with no dedup, so when two ports expose the same
path and method (here `GET /health` on ports 8000 and 8001) the produced
manifest holds two descriptors with the same `(path, method)` identity key. -/
theorem C7_counterexample_cross_port_duplicate :
    (discover_probe_and_cleanup "c" "n"
        [(8000, ⟨.ok "u1", .ok ⟨some [("/health", [("get", ⟨none⟩)])]⟩⟩),
         (8001, ⟨.ok "u2", .ok ⟨some [("/health", [("get", ⟨none⟩)])]⟩⟩)] 0 0).1
      = .ok ⟨[extractedRoute "/health" "get" ⟨none⟩ 8000,
              extractedRoute "/health" "get" ⟨none⟩ 8001], "n"⟩
    ∧ routeKey (extractedRoute "/health" "get" ⟨none⟩ 8000)
        = routeKey (extractedRoute "/health" "get" ⟨none⟩ 8001)
    ∧ ¬ (([extractedRoute "/health" "get" ⟨none⟩ 8000,
           extractedRoute "/health" "get" ⟨none⟩ 8001] : List Route).map routeKey).Nodup :=
  ⟨rfl, by decide, by decide⟩

/-- Claim C7 (amended): the merge of `load_route_manifest` preserves
identity-key uniqueness (if the loaded routes have pairwise distinct
`(path, method)` keys, so does the merged manifest), and the routes extracted
from a single port's schema have pairwise distinct keys whenever the schema's
path keys are distinct and each path's method names are distinct up to
upper-casing (as JSON-object keys are); a discovery run concatenating several
ports' extractions may still repeat a key across ports. -/
theorem C7_unique_keys_within_merge_and_single_port :
    (∀ routes static_routes : List Route,
        (routes.map routeKey).Nodup →
        ((load_route_manifest_merge routes static_routes).routes.map routeKey).Nodup)
    ∧ (∀ (spec : SpecDoc) (port : Int),
        ((spec.pathsMap.getD []).map Prod.fst).Nodup →
        (∀ pm ∈ spec.pathsMap.getD [], (pm.2.map (fun md => pyUpper md.1)).Nodup) →
        ((extract_routes spec port).map routeKey).Nodup) := by
  constructor
  · intro routes statics h
    rw [merge_eq_workingSetRun]
    unfold mergeWorkingSetRun
    by_cases he : statics.isEmpty
    · rw [if_pos he]
      exact h
    · rw [if_neg he]
      exact mergeWorkingSet_nodup_keys statics routes [] [] h
  · exact fun spec port h1 h2 => extract_routes_nodup_keys spec port h1 h2

/-- Claim C7 (amended), witnessed on a two-route merge and a two-method schema. -/
theorem C7_unique_keys_within_merge_and_single_port_witness :
    ((load_route_manifest_merge
        [{ path := "/a", method := some "GET", port := some 1, target_path := some "/a" }]
        [{ path := "/b", method := some "GET", port := some 2,
           target_path := some "/b" }]).routes.map routeKey).Nodup
    ∧ ((extract_routes ⟨some [("/x", [("get", ⟨none⟩), ("post", ⟨none⟩)])]⟩ 9001).map
        routeKey).Nodup :=
  ⟨C7_unique_keys_within_merge_and_single_port.1 _ _ (by decide),
   C7_unique_keys_within_merge_and_single_port.2 _ 9001 (by decide) (by decide)⟩

example (b probes ap dur deadline i t last) :
    retryLoop b probes ap dur deadline i t last =
      if t < deadline then
        match (fetch_spec b (ap i) probes).1 with
        | .ok doc => (.ok doc, i + 1)
        | .error e => retryLoop b probes ap dur deadline (i + 1) (t + dur i + 5) (some e)
      else retryFinish b i last := by
  rw [retryLoop]

lemma retryLoop_spec (b : String) (probes : List String)
    (ap : Nat → String → ProbeOutcome) (dur : Nat → Nat) (deadline t0 : Nat)
    (i t : Nat) (last : Option String)
    (ht : t = attemptTime dur t0 i)
    (hbefore : ∀ j, j < i → attemptTime dur t0 j < deadline)
    (herrs : ∀ j, j < i → ∃ e', (fetch_spec b (ap j) probes).1 = .error e')
    (hlast : (last = none ∧ i = 0) ∨
      (∃ e', last = some e' ∧ 0 < i ∧ (fetch_spec b (ap (i - 1)) probes).1 = .error e')) :
    (i ≤ (retryLoop b probes ap dur deadline i t last).2)
    ∧ (∀ j, j < (retryLoop b probes ap dur deadline i t last).2 →
        attemptTime dur t0 j < deadline)
    ∧ (∀ doc, (retryLoop b probes ap dur deadline i t last).1 = .ok doc →
        0 < (retryLoop b probes ap dur deadline i t last).2
        ∧ (fetch_spec b (ap ((retryLoop b probes ap dur deadline i t last).2 - 1)) probes).1
            = .ok doc
        ∧ (∀ j, j < (retryLoop b probes ap dur deadline i t last).2 - 1 →
            ∃ e', (fetch_spec b (ap j) probes).1 = .error e'))
    ∧ (∀ e, (retryLoop b probes ap dur deadline i t last).1 = .error e →
        ¬ attemptTime dur t0 (retryLoop b probes ap dur deadline i t last).2 < deadline
        ∧ (∀ j, j < (retryLoop b probes ap dur deadline i t last).2 →
            ∃ e', (fetch_spec b (ap j) probes).1 = .error e')
        ∧ (0 < (retryLoop b probes ap dur deadline i t last).2 →
            (fetch_spec b
              (ap ((retryLoop b probes ap dur deadline i t last).2 - 1)) probes).1
              = .error e)
        ∧ ((retryLoop b probes ap dur deadline i t last).2 = 0 →
            e = "Unable to fetch OpenAPI spec from " ++ b)) := by
  rw [retryLoop]
  by_cases h : t < deadline
  · rw [if_pos h]
    cases heq : (fetch_spec b (ap i) probes).1 with
    | ok doc =>
      simp only [heq]
      refine ⟨Nat.le_succ i, ?_, ?_, ?_⟩
      · intro j hj
        rcases Nat.lt_succ_iff_lt_or_eq.mp hj with hj' | hj'
        · exact hbefore j hj'
        · subst hj'
          rw [← ht]
          exact h
      · intro doc' hdoc
        refine ⟨Nat.succ_pos i, ?_, ?_⟩
        · simp only [Nat.add_sub_cancel]
          rw [heq]
          injection hdoc with hh
          rw [hh]
        · intro j hj
          simp only [Nat.add_sub_cancel] at hj
          exact herrs j hj
      · intro e he
        cases he
    | error e =>
      simp only [heq]
      have ht' : t + dur i + 5 = attemptTime dur t0 (i + 1) := by
        rw [attemptTime, ← ht]
      have hbefore' : ∀ j, j < i + 1 → attemptTime dur t0 j < deadline := by
        intro j hj
        rcases Nat.lt_succ_iff_lt_or_eq.mp hj with hj' | hj'
        · exact hbefore j hj'
        · subst hj'
          rw [← ht]
          exact h
      have herrs' : ∀ j, j < i + 1 → ∃ e', (fetch_spec b (ap j) probes).1 = .error e' := by
        intro j hj
        rcases Nat.lt_succ_iff_lt_or_eq.mp hj with hj' | hj'
        · exact herrs j hj'
        · subst hj'
          exact ⟨e, heq⟩
      have hlast' : ((some e : Option String) = none ∧ i + 1 = 0) ∨
          (∃ e', (some e : Option String) = some e' ∧ 0 < i + 1 ∧
            (fetch_spec b (ap (i + 1 - 1)) probes).1 = .error e') := by
        right
        exact ⟨e, rfl, Nat.succ_pos i, by simpa using heq⟩
      have ih := retryLoop_spec b probes ap dur deadline t0 (i + 1) (t + dur i + 5)
        (some e) ht' hbefore' herrs' hlast'
      exact ⟨Nat.le_of_succ_le ih.1, ih.2.1, ih.2.2.1, ih.2.2.2⟩
  · rw [if_neg h]
    cases last with
    | some e =>
      simp only [retryFinish]
      refine ⟨Nat.le_refl i, hbefore, ?_, ?_⟩
      · intro doc hdoc
        cases hdoc
      · intro e' he'
        injection he' with hh
        subst hh
        rcases hlast with ⟨hnone, _⟩ | ⟨e'', hsome, hi, herr⟩
        · cases hnone
        · injection hsome with hh2
          subst hh2
          refine ⟨by rw [← ht]; exact h, herrs, fun _ => herr, ?_⟩
          intro hi0
          rw [hi0] at hi
          cases hi
    | none =>
      simp only [retryFinish]
      refine ⟨Nat.le_refl i, hbefore, ?_, ?_⟩
      · intro doc hdoc
        cases hdoc
      · intro e' he'
        injection he' with hh
        subst hh
        refine ⟨by rw [← ht]; exact h, herrs, ?_, fun _ => rfl⟩
        intro hi
        rcases hlast with ⟨_, hi0⟩ | ⟨e'', hsome, _, _⟩
        · rw [hi0] at hi
          cases hi
        · cases hsome
termination_by deadline - t
decreasing_by omega

/-- Claim C6: `fetch_spec_with_retry` re-invokes the whole `fetch_spec` probe
sequence on each failure against a deadline `t0 + timeout` computed once at
entry: every attempt starts before that fixed deadline (each failed attempt
followed by the fixed 5-second sleep, as `attemptTime` encodes), all attempts
but the last fail, a success returns the last attempt's document, and on
failure the loop has run out of deadline and re-raises the last observed
failure (or a fresh `RuntimeError` if no attempt ever ran). -/
theorem C6_retry_until_deadline_then_reraise :
    ∀ (base_url : String) (probes : List String) (ap : Nat → String → ProbeOutcome)
      (dur : Nat → Nat) (t0 timeout : Nat),
      (∀ j, j < (fetch_spec_with_retry base_url probes ap dur t0 timeout).2 →
          attemptTime dur t0 j < t0 + timeout)
      ∧ (∀ j, j + 1 < (fetch_spec_with_retry base_url probes ap dur t0 timeout).2 →
          ∃ e', (fetch_spec base_url (ap j) probes).1 = .error e')
      ∧ (∀ doc, (fetch_spec_with_retry base_url probes ap dur t0 timeout).1 = .ok doc →
          0 < (fetch_spec_with_retry base_url probes ap dur t0 timeout).2
          ∧ (fetch_spec base_url
              (ap ((fetch_spec_with_retry base_url probes ap dur t0 timeout).2 - 1))
              probes).1 = .ok doc)
      ∧ (∀ e, (fetch_spec_with_retry base_url probes ap dur t0 timeout).1 = .error e →
          ¬ attemptTime dur t0 (fetch_spec_with_retry base_url probes ap dur t0 timeout).2
              < t0 + timeout
          ∧ (∀ j, j < (fetch_spec_with_retry base_url probes ap dur t0 timeout).2 →
              ∃ e', (fetch_spec base_url (ap j) probes).1 = .error e')
          ∧ (0 < (fetch_spec_with_retry base_url probes ap dur t0 timeout).2 →
              (fetch_spec base_url
                (ap ((fetch_spec_with_retry base_url probes ap dur t0 timeout).2 - 1))
                probes).1 = .error e)
          ∧ ((fetch_spec_with_retry base_url probes ap dur t0 timeout).2 = 0 →
              e = "Unable to fetch OpenAPI spec from " ++ base_url)) := by
  intro b probes ap dur t0 timeout
  have master := retryLoop_spec b probes ap dur (t0 + timeout) t0 0 t0 none rfl
    (fun j hj => absurd hj (Nat.not_lt_zero j))
    (fun j hj => absurd hj (Nat.not_lt_zero j))
    (Or.inl ⟨rfl, rfl⟩)
  unfold fetch_spec_with_retry
  refine ⟨master.2.1, ?_, fun doc hdoc => ⟨(master.2.2.1 doc hdoc).1, (master.2.2.1 doc hdoc).2.1⟩,
    master.2.2.2⟩
  intro j hj
  cases hres : (retryLoop b probes ap dur (t0 + timeout) 0 t0 none).1 with
  | ok doc =>
    have := (master.2.2.1 doc hres).2.2
    exact this j (by omega)
  | error e =>
    have := (master.2.2.2 e hres).2.1
    exact this j (by omega)

lemma retry_witness_comp :
    fetch_spec_with_retry "http://h" ["/a"] (fun _ _ => ProbeOutcome.networkError)
      (fun _ => 1) 100 13
    = (.error ("Unable to fetch OpenAPI spec from " ++ "http://h"), 3) := by
  have hstep : (fetch_spec "http://h" (fun _ : String => ProbeOutcome.networkError) ["/a"]).1
      = Except.error ("Unable to fetch OpenAPI spec from " ++ "http://h") := rfl
  unfold fetch_spec_with_retry
  simp [retryLoop, retryFinish, hstep]

/-- Claim C6, witnessed on three failing attempts inside a 13-second budget. -/
theorem C6_retry_until_deadline_then_reraise_witness :
    ¬ attemptTime (fun _ => 1) 100
        (fetch_spec_with_retry "http://h" ["/a"] (fun _ _ => ProbeOutcome.networkError)
          (fun _ => 1) 100 13).2 < 100 + 13
    ∧ (∀ j, j < (fetch_spec_with_retry "http://h" ["/a"]
          (fun _ _ => ProbeOutcome.networkError) (fun _ => 1) 100 13).2 →
        ∃ e', (fetch_spec "http://h" ((fun _ _ => ProbeOutcome.networkError) j) ["/a"]).1
          = .error e')
    ∧ (0 < (fetch_spec_with_retry "http://h" ["/a"] (fun _ _ => ProbeOutcome.networkError)
          (fun _ => 1) 100 13).2 →
        (fetch_spec "http://h"
          ((fun _ _ => ProbeOutcome.networkError)
            ((fetch_spec_with_retry "http://h" ["/a"] (fun _ _ => ProbeOutcome.networkError)
              (fun _ => 1) 100 13).2 - 1)) ["/a"]).1
          = .error ("Unable to fetch OpenAPI spec from " ++ "http://h"))
    ∧ ((fetch_spec_with_retry "http://h" ["/a"] (fun _ _ => ProbeOutcome.networkError)
          (fun _ => 1) 100 13).2 = 0 →
        "Unable to fetch OpenAPI spec from " ++ "http://h"
          = "Unable to fetch OpenAPI spec from " ++ "http://h") :=
  (C6_retry_until_deadline_then_reraise "http://h" ["/a"] (fun _ _ => ProbeOutcome.networkError) (fun _ => 1) 100 13).2.2.2
    ("Unable to fetch OpenAPI spec from " ++ "http://h") (by rw [retry_witness_comp])

/-- Claim C8 fails for the manifest-registration path: `_register_single_route`
derives the identifier from the path alone (`cord_` + internal path — the
`idx` parameter is never used), so `GET /x` and `POST /x` both register under
`cord_/x` and the registered identifiers are not pairwise distinct. -/
theorem C8_counterexample_registrar_name_collision :
    (register_passthrough_routes
      [{ path := "/x", method := some "GET" }, { path := "/x", method := some "POST" }]
      8000).map (fun c => c.2)
      = ["cord_/x", "cord_/x"]
    ∧ ¬ ((register_passthrough_routes
      [{ path := "/x", method := some "GET" }, { path := "/x", method := some "POST" }]
      8000).map (fun c => c.2)).Nodup :=
  ⟨rfl, by decide⟩

/-- Claim C8 (amended): in `_register_single_route` the identifier is
`cord_` + the route's internal path (falling back through `internal_path` and
`public_api_path` to `path`) with no method component and no index suffix, so
routes sharing a path collide; only the code-generation path
(`generate_route_code` with `_make_unique_name`) derives identifiers from
method+path and disambiguates a repeated base with an `_count+1` suffix that
differs from the base — and even there distinctness can fail when one route's
base equals another route's suffixed name (`get_x_2`). -/
theorem C8_route_identifier_derivation :
    (∀ (r : Route) (idx : Nat) (dp : Int),
        r.function_name = none → r.cord = none →
        (register_single_route r idx dp).2
          = "cord_" ++ pyOrStr r.internal_path (pyOrStr r.public_api_path r.path))
    ∧ (∀ (base : String) (tracker : String → Nat),
        tracker base = 0 → (make_unique_name base tracker).1 = base)
    ∧ (∀ (base : String) (tracker : String → Nat) (c : Nat),
        tracker base = c → 0 < c →
        (make_unique_name base tracker).1 = base ++ "_" ++ Nat.repr (c + 1)
        ∧ (make_unique_name base tracker).1 ≠ base)
    ∧ generateRouteNames (fun _ => 0) [("/x", "GET"), ("/x", "GET"), ("/x", "POST")]
        = ["get_x", "get_x_2", "post_x"]
    ∧ (["get_x", "get_x_2", "post_x"] : List String).Nodup
    ∧ generateRouteNames (fun _ => 0) [("/x", "GET"), ("/x", "GET"), ("/x/2", "GET")]
        = ["get_x", "get_x_2", "get_x_2"] := by
  refine ⟨?_, ?_, ?_, rfl, by decide, rfl⟩
  · intro r idx dp h1 h2
    simp [register_single_route, h1, h2, pyOrStr]
  · intro base tracker h
    simp [make_unique_name, h]
  · intro base tracker c h hc
    have hne : c ≠ 0 := Nat.pos_iff_ne_zero.mp hc
    constructor
    · simp [make_unique_name, h, hne]
    · simp only [make_unique_name, h]
      rw [if_neg hne]
      intro heq
      have hlen := congrArg String.length heq
      simp only [String.length_append,
        show ("_" : String).length = 1 from rfl] at hlen
      omega

/-- Claim C8 (amended), witnessed on a bare `GET /x` route dict. -/
theorem C8_route_identifier_derivation_witness :
    (register_single_route { path := "/x", method := some "GET" } 0 8000).2
      = "cord_" ++ pyOrStr none (pyOrStr none "/x") :=
  C8_route_identifier_derivation.1 { path := "/x", method := some "GET" } 0 8000 rfl rfl
